import Mathlib

/-!
Verification development for the `chromefleet` fleet controller
(`src/chromefleet.py`).  Python strings are embedded as `List Char`,
the external world (container runtime, overlay-network agent, HTTP
fetches) as explicit environment records, and each handler as a pure
Lean function of that environment mirroring the Python control flow.
-/

/-! ## Session naming (chromefleet.py:230, 288, 422-423) -/

/-- The fixed container-name marker `"chromium-"` (9 characters). -/
def chromiumMark : List Char := "chromium-".toList

/-- Python `f"chromium-{browser_id}"` (chromefleet.py:230 and every other
handler): the container name derived from a browser id. -/
def container_name (browser_id : List Char) : List Char :=
  chromiumMark ++ browser_id

/-- Python `c[len("chromium-"):]` — the slice strip used by `list_browsers`
(chromefleet.py:288). -/
def stripBySlice (c : List Char) : List Char := c.drop 9

/-- The id derivation of `list_browsers` (chromefleet.py:288): keep the
container names starting with `"chromium-"` and strip the marker by slicing. -/
def list_browsers (containers : List (List Char)) : List (List Char) :=
  (containers.filter (fun c => chromiumMark.isPrefixOf c)).map stripBySlice

/-- One left-to-right scan of Python `container.replace("chromium-", "")`
(chromefleet.py:423): every occurrence of the 9-character marker is removed,
scanning left to right without rescanning.  The `Nat` argument is structural
fuel; `replaceMark` below instantiates it with the list length, which is
always enough because each step consumes at least one character. -/
def replaceMarkFuel : Nat → List Char → List Char
  | 0, l => l
  | _ + 1, [] => []
  | n + 1, c :: cs =>
    if chromiumMark.isPrefixOf (c :: cs) then replaceMarkFuel n (cs.drop 8)
    else c :: replaceMarkFuel n cs

/-- Python `container.replace("chromium-", "")` (chromefleet.py:423). -/
def replaceMark (l : List Char) : List Char := replaceMarkFuel l.length l

theorem replaceMarkFuel_congr :
    ∀ (n m : Nat) (l : List Char), l.length ≤ n → l.length ≤ m →
      replaceMarkFuel n l = replaceMarkFuel m l := by
  intro n
  induction n with
  | zero =>
    intro m l hn _
    have hl : l = [] := List.eq_nil_of_length_eq_zero (Nat.le_zero.mp hn)
    subst hl
    cases m <;> rfl
  | succ n ih =>
    intro m l hn hm
    cases l with
    | nil => cases m <;> rfl
    | cons c cs =>
      cases m with
      | zero => simp at hm
      | succ m =>
        simp only [replaceMarkFuel]
        by_cases hpre : chromiumMark.isPrefixOf (c :: cs)
        · simp only [hpre, if_true]
          apply ih
          · have := List.length_drop 8 cs
            simp only [List.length_cons] at hn
            omega
          · have := List.length_drop 8 cs
            simp only [List.length_cons] at hm
            omega
        · have := ih m cs (by simp only [List.length_cons] at hn; omega)
            (by simp only [List.length_cons] at hm; omega)
          simp [hpre, this]

theorem isPrefixOf_append_self (xs ys : List Char) :
    xs.isPrefixOf (xs ++ ys) = true := by
  induction xs with
  | nil => simp [List.isPrefixOf]
  | cons a as ih => simp [List.isPrefixOf, ih]

theorem replaceMarkFuel_mark_step (n : Nat) (l : List Char) :
    replaceMarkFuel (n + 1) (chromiumMark ++ l) = replaceMarkFuel n l := by
  obtain ⟨a, as, ha⟩ : ∃ a as, chromiumMark = a :: as := ⟨_, _, rfl⟩
  have has : as.length = 8 := by
    have h9 : chromiumMark.length = 9 := by decide
    rw [ha] at h9
    simp only [List.length_cons] at h9
    omega
  rw [ha, List.cons_append]
  have hpre : chromiumMark.isPrefixOf (a :: (as ++ l)) = true := by
    rw [← List.cons_append, ← ha]
    exact isPrefixOf_append_self _ _
  have hdrop : (as ++ l).drop 8 = l := by
    rw [← has]
    exact List.drop_left as l
  simp only [replaceMarkFuel, hpre, if_true, hdrop]

theorem replaceMark_mark (l : List Char) :
    replaceMark (chromiumMark ++ l) = replaceMark l := by
  unfold replaceMark
  have hlen : (chromiumMark ++ l).length = (8 + l.length) + 1 := by
    simp [chromiumMark]
    omega
  rw [hlen, replaceMarkFuel_mark_step (8 + l.length) l]
  exact replaceMarkFuel_congr _ _ _ (by omega) (by omega)

/-! ## Endpoint discovery (chromefleet.py:369-428) -/

/-- Python `f"http://{ip_address}:9222"` (chromefleet.py:271, 372). -/
def cdpUrlOf (ip : List Char) : List Char :=
  "http://".toList ++ ip ++ ":9222".toList

/-- One entry of the parsed `/json/list` document; `id` is its optional
`"id"` field (`item["id"]` raises when the field is missing). -/
structure PageItem where
  id : Option (List Char)
deriving DecidableEq

/-- The external world seen by the discovery functions: the container
listing, the per-container `tailscale ip` outcome (`none` = the exec
raises), and the fetched-and-parsed page-list document per cdp URL
(`none` = the fetch or the JSON parse raises). -/
structure Fleet where
  containers : List (List Char)
  tailscale : List Char → Option (List Char)
  pageDoc : List Char → Option (List PageItem)

/-- `get_cdp_url` (chromefleet.py:369-372): `tailscale ip` on the derived
container name, then the fixed-port URL; `none` when the lookup raises. -/
def get_cdp_url (f : Fleet) (browser_id : List Char) : Option (List Char) :=
  (f.tailscale (container_name browser_id)).map cdpUrlOf

/-- Python `[item["id"] for item in data]` (chromefleet.py:412): all ids in
order, or `none` as soon as one item lacks the `"id"` field (KeyError). -/
def extractIds : List PageItem → Option (List (List Char))
  | [] => some []
  | item :: rest =>
    match item.id with
    | none => none
    | some i => (extractIds rest).map (fun is => i :: is)

/-- `get_page_list` (chromefleet.py:405-417): fetch the page-list document
and return the ids; any raise inside the `try` (address lookup, fetch,
parse, missing field) is caught and yields `[]`. -/
def get_page_list (f : Fleet) (browser_id : List Char) : List (List Char) :=
  match get_cdp_url f browser_id with
  | none => []
  | some url =>
    match f.pageDoc url with
    | none => []
    | some items => (extractIds items).getD []

/-- The loop body of `find_browser_id` (chromefleet.py:422-426): strip the
marker with `replace`, query the page list, return on first containment. -/
def findLoop (f : Fleet) (page_id : List Char) : List (List Char) → Option (List Char)
  | [] => none
  | c :: rest =>
    let browser_id := replaceMark c
    if page_id ∈ get_page_list f browser_id then some browser_id
    else findLoop f page_id rest

/-- `find_browser_id` (chromefleet.py:420-428): scan the containers whose
name starts with the marker, in enumeration order. -/
def find_browser_id (f : Fleet) (page_id : List Char) : Option (List Char) :=
  findLoop f page_id (f.containers.filter (fun c => chromiumMark.isPrefixOf c))

/-- The session ids the fan-out scan of `find_browser_id` enumerates, in
the runtime's order. -/
def fanoutSessions (f : Fleet) : List (List Char) :=
  (f.containers.filter (fun c => chromiumMark.isPrefixOf c)).map replaceMark

theorem findLoop_eq_find? (f : Fleet) (p : List Char) :
    ∀ L : List (List Char),
      findLoop f p L = (L.map replaceMark).find? (fun b => decide (p ∈ get_page_list f b)) := by
  intro L
  induction L with
  | nil => rfl
  | cons c rest ih =>
    simp only [findLoop, List.map_cons, List.find?]
    by_cases hmem : p ∈ get_page_list f (replaceMark c)
    · simp [hmem]
    · simp [hmem, ih]

/-! ## Last-activity telemetry (chromefleet.py:139-153) -/

/-- The container-side history store as `get_container_last_activity` sees
it: whether the `cp` of the history database succeeds, and the outcome of
the sqlite query — `none` when the exec raises, `some none` when its stdout
is empty or does not parse as a float, `some (some t)` when it parses to
the Chromium-epoch value `t` (modelled exactly over `ℚ`). -/
structure HistoryEnv where
  copyOk : Bool
  queryOut : Option (Option ℚ)

/-- `get_container_last_activity` (chromefleet.py:139-153): convert the
history store's Chromium epoch (microseconds since 1601-01-01) to a Unix
timestamp; every failure path returns `none`. -/
def get_container_last_activity (e : HistoryEnv) : Option ℚ :=
  if e.copyOk = false then none
  else
    match e.queryOut with
    | none => none
    | some none => none
    | some (some chromium_time) => some (chromium_time / 1000000 - 11644473600)

/-! ## HTTP administrative handlers (chromefleet.py:227-320) -/

/-- `MAX_ATTEMPTS` (chromefleet.py:266, 304). -/
def MAX_ATTEMPTS : Nat := 3

/-- A raised `HTTPException`, carrying its status class and detail string. -/
inductive HErr
  | notFound (detail : List Char)
  | internal (detail : List Char)
deriving DecidableEq

/-- The JSON object returned by `get_browser` on success
(chromefleet.py:274). -/
structure BrowserInfo where
  ip_address : List Char
  cdp_url : List Char
  last_activity_timestamp : Option ℚ
deriving DecidableEq

/-- The external world seen by the administrative handlers.
`ipAttempt k` is the outcome of the k-th `get_tailscale_ip` call inside
`get_browser` (`Except.error` carries the exception text);
`setupAttempt k` is the boolean result of the k-th `setup_tailscale`;
`launch` is the `podman run` outcome (`Except.error` carries the
`CalledProcessError` text).  `lastActivity` abstracts
`get_container_last_activity`, which never raises. -/
structure GatewayEnv where
  container_exists : Bool
  ipAttempt : Nat → Except (List Char) (List Char)
  lastActivity : Option ℚ
  setupAttempt : Nat → Bool
  launch : Except (List Char) (List Char)

/-- Detail `f"Browser {browser_id} not found!"` (chromefleet.py:263). -/
def notFoundDetail (b : List Char) : List Char :=
  "Browser ".toList ++ b ++ " not found!".toList

/-- Detail `f"Unable to get Tailscale IP address for {container_name}!"`
(chromefleet.py:278). -/
def unableIpDetail (b : List Char) : List Char :=
  "Unable to get Tailscale IP address for ".toList ++ container_name b ++ "!".toList

/-- Detail `f"Unable to connect browser {browser_id} to Tailscale!"`
(chromefleet.py:313). -/
def connectDetail (b : List Char) : List Char :=
  "Unable to connect browser ".toList ++ b ++ " to Tailscale!".toList

/-- Detail `f"Unable to start browser {browser_id}!"` (chromefleet.py:235). -/
def startDetail (b : List Char) : List Char :=
  "Unable to start browser ".toList ++ b ++ "!".toList

/-- The retry loop of `get_browser` (chromefleet.py:267-280), over the
remaining attempt indices of `range(MAX_ATTEMPTS)`.  The second component
records the `asyncio.sleep` durations performed, in order; the loop sleeps
for 1 second after every failed attempt, raising 500 after the last one.
The `[]` fall-through (Python returns `None`) is unreachable because the
last failed attempt raises. -/
def get_browser_go (e : GatewayEnv) (b : List Char) :
    List Nat → List Nat → Except HErr (Option BrowserInfo) × List Nat
  | [], sleeps => (.ok none, sleeps)
  | attempt :: rest, sleeps =>
    match e.ipAttempt attempt with
    | .ok ip => (.ok (some ⟨ip, cdpUrlOf ip, e.lastActivity⟩), sleeps)
    | .error _ =>
      let sleeps := sleeps ++ [1]
      if attempt + 1 = MAX_ATTEMPTS then (.error (.internal (unableIpDetail b)), sleeps)
      else get_browser_go e b rest sleeps

/-- `get_browser` (chromefleet.py:258-280): 404 when the container is
absent, otherwise the retry loop.  Result paired with the sleep log. -/
def get_browser (e : GatewayEnv) (b : List Char) :
    Except HErr (Option BrowserInfo) × List Nat :=
  if e.container_exists = false then (.error (.notFound (notFoundDetail b)), [])
  else get_browser_go e b (List.range MAX_ATTEMPTS) []

/-- The retry loop of `connect_browser_to_tailscale` (chromefleet.py:305-311):
sleep 1 second, attempt `setup_tailscale`, return `get_browser` on success;
exhaustion raises, and the surrounding `except` turns any raise — including
an `HTTPException` escaping the inner `get_browser` — into the 500
connect detail. -/
def connect_go (e : GatewayEnv) (b : List Char) :
    List Nat → List Nat → Except HErr (Option BrowserInfo) × List Nat
  | [], sleeps => (.error (.internal (connectDetail b)), sleeps)
  | attempt :: rest, sleeps =>
    let sleeps := sleeps ++ [1]
    if e.setupAttempt attempt then
      match get_browser e b with
      | (.ok v, s2) => (.ok v, sleeps ++ s2)
      | (.error _, s2) => (.error (.internal (connectDetail b)), sleeps ++ s2)
    else connect_go e b rest sleeps

/-- `connect_browser_to_tailscale` (chromefleet.py:296-315). -/
def connect_browser_to_tailscale (e : GatewayEnv) (b : List Char) :
    Except HErr (Option BrowserInfo) × List Nat :=
  if e.container_exists = false then (.error (.notFound (notFoundDetail b)), [])
  else connect_go e b (List.range MAX_ATTEMPTS) []

/-- The exception text raised by `launch_container` on a failed `podman run`
(chromefleet.py:102): `f"Unable to launch Chromium for {container_name}: {e}"`. -/
def launchExcText (b cause : List Char) : List Char :=
  "Unable to launch Chromium for ".toList ++ container_name b ++ ": ".toList ++ cause

/-- `launch_container` (chromefleet.py:73-102) as seen by `create_browser`:
success yields the container id, failure the wrapped exception text. -/
def launch_container (e : GatewayEnv) (b : List Char) : Except (List Char) (List Char) :=
  match e.launch with
  | .ok cid => .ok cid
  | .error cause => .error (launchExcText b cause)

/-- The marker of the log line `print(f"{detail} Exception={e}")`
(chromefleet.py:236 and the other handlers). -/
def exceptionMark : List Char := " Exception=".toList

/-- `create_browser` (chromefleet.py:227-237): launch, then connect; any
raise is logged as `f"{detail} Exception={e}"` and surfaced as a 500 whose
detail is only `startDetail`.  The second component is the list of such
log lines printed by this handler. -/
def create_browser (e : GatewayEnv) (b : List Char) :
    Except HErr (Option BrowserInfo) × List (List Char) :=
  match launch_container e b with
  | .error exc =>
    (.error (.internal (startDetail b)), [startDetail b ++ exceptionMark ++ exc])
  | .ok _ =>
    match connect_browser_to_tailscale e b with
    | (.ok v, _) => (.ok v, [])
    | (.error err, _) =>
      let excText :=
        match err with
        | .notFound d => d
        | .internal d => d
      (.error (.internal (startDetail b)), [startDetail b ++ exceptionMark ++ excText])

/-! ## Session configuration (chromefleet.py:156-199, 341-356) -/

/-- The podman exec commands `configure_container` can issue, in source
order.  Only `queryIp` (`tailscale ip`, via `get_tailscale_ip`) reads
without modifying the container. -/
inductive Cmd
  | queryIp
  | sedDeleteUpstream
  | sedAppendUpstream (url : List Char)
  | pkillTinyproxy
  | startTinyproxy
deriving DecidableEq

/-- Whether a command changes container state. -/
def stateModifying : Cmd → Bool
  | .queryIp => false
  | _ => true

/-- The external world seen by `configure_browser`: container existence,
the `tailscale ip` outcome, and the success of each proxy-reconfiguration
exec (a failure is a `CalledProcessError`, which `configure_container`
re-raises as an `Exception`). -/
structure CfgEnv where
  container_exists : Bool
  tailscale : Option (List Char)
  sedDelOk : Bool
  sedAddOk : Bool
  pkillOk : Bool
  startOk : Bool

/-- A configuration payload: the JSON object body, as key/value pairs with
string values (the only kind the code consumes). -/
def Config := List (List Char × List Char)

/-- Python `config.get(key, dflt)`. -/
def cfgGet (cfg : Config) (key dflt : List Char) : List Char :=
  ((cfg.find? (fun kv => kv.1 == key)).map Prod.snd).getD dflt

/-- The recognized configuration key `"proxy_url"` (chromefleet.py:160). -/
def proxyUrlKey : List Char := "proxy_url".toList

/-- `configure_container` (chromefleet.py:156-199): always performs the
read-only `tailscale ip` lookup first (raising if it fails); then, only when
`config.get("proxy_url", "")` is truthy (a non-empty string), runs the four
proxy steps in order, stopping at the first failed exec and re-raising it.
Returns the commands issued, in order, and whether the call raised. -/
def configure_container (e : CfgEnv) (cfg : Config) : List Cmd × Except Unit Unit :=
  match e.tailscale with
  | none => ([.queryIp], .error ())
  | some _ =>
    let proxy_url := cfgGet cfg proxyUrlKey []
    if proxy_url = [] then ([.queryIp], .ok ())
    else if e.sedDelOk = false then ([.queryIp, .sedDeleteUpstream], .error ())
    else if e.sedAddOk = false then
      ([.queryIp, .sedDeleteUpstream, .sedAppendUpstream proxy_url], .error ())
    else if e.pkillOk = false then
      ([.queryIp, .sedDeleteUpstream, .sedAppendUpstream proxy_url, .pkillTinyproxy], .error ())
    else if e.startOk = false then
      ([.queryIp, .sedDeleteUpstream, .sedAppendUpstream proxy_url, .pkillTinyproxy,
        .startTinyproxy], .error ())
    else
      ([.queryIp, .sedDeleteUpstream, .sedAppendUpstream proxy_url, .pkillTinyproxy,
        .startTinyproxy], .ok ())

/-- Detail `f"Unable to configure browser {browser_id}!"` (chromefleet.py:354). -/
def configDetail (b : List Char) : List Char :=
  "Unable to configure browser ".toList ++ b ++ "!".toList

/-- The success body `{"status": "configured"}` (chromefleet.py:352). -/
def configuredStatus : List Char := "configured".toList

/-- `configure_browser` (chromefleet.py:341-356): 404 when the container is
absent, otherwise run `configure_container`, mapping a raise to a 500.
Result paired with the commands issued. -/
def configure_browser (e : CfgEnv) (cfg : Config) (b : List Char) :
    Except HErr (List Char) × List Cmd :=
  if e.container_exists = false then (.error (.notFound (notFoundDetail b)), [])
  else
    match configure_container e cfg with
    | (cmds, .ok _) => (.ok configuredStatus, cmds)
    | (cmds, .error _) => (.error (.internal (configDetail b)), cmds)

/-! ## Tunnel handlers as event traces (chromefleet.py:431-507, 575-610) -/

/-- The client-visible steps a tunnel handler performs, in order:
accepting the client socket (with optional subprotocol), checking container
existence, attempting a backend resolution step (`get_tailscale_ip`,
`get_cdp_websocket_url`, `websockets.connect`, or `asyncio.open_connection`),
closing the client with a code, relaying, or letting an exception escape
the handler (the connection is dropped with no close frame). -/
inductive WsAct
  | accepted (sub : Option (List Char))
  | checkedContainer
  | resolvedBackend
  | closedWith (code : Nat)
  | relayed
  | unhandledError
deriving DecidableEq

/-- How the backend connection attempt of `websocket_proxy` ends. -/
inductive BackendOutcome
  | ok
  | osError
  | otherError
deriving DecidableEq

/-- The external world seen by the tunnel handlers. `debuggerUrl` is the
`get_cdp_websocket_url` outcome, `backendConnect` the `websockets.connect`
outcome, `clientStillConnected` the `client_ws.client_state == CONNECTED`
test at error-handling time, `tailscale` the `get_tailscale_ip` outcome in
`websockify_proxy`, and `vncConnectOk` the `asyncio.open_connection`
outcome. -/
structure TunnelEnv where
  container_exists : Bool
  debuggerUrl : Except Unit (List Char)
  backendConnect : BackendOutcome
  clientStillConnected : Bool
  tailscale : Except Unit (List Char)
  vncConnectOk : Bool

/-- The client-visible steps of `websocket_proxy` (chromefleet.py:431-481):
connect to the already-resolved backend, relay on success; an `OSError`
closes the still-connected client with 4502 ("Remote server unreachable"),
any other exception with 4500 ("Internal proxy error"). -/
def websocket_proxy_acts (e : TunnelEnv) : List WsAct :=
  match e.backendConnect with
  | .ok => [.resolvedBackend, .relayed]
  | .osError =>
    .resolvedBackend :: (if e.clientStillConnected then [.closedWith 4502] else [])
  | .otherError =>
    .resolvedBackend :: (if e.clientStillConnected then [.closedWith 4500] else [])

/-- The client-visible steps of `cdp_browser_websocket_proxy`
(chromefleet.py:484-507): accept first, then the existence check (close
1008 when absent), then `get_cdp_websocket_url` (close 4502 on failure),
then the relay. -/
def cdp_browser_acts (e : TunnelEnv) : List WsAct :=
  .accepted none :: .checkedContainer ::
    (if e.container_exists = false then [.closedWith 1008]
     else
       match e.debuggerUrl with
       | .error _ => [.resolvedBackend, .closedWith 4502]
       | .ok _ => .resolvedBackend :: websocket_proxy_acts e)

/-- The client-visible steps of `websockify_proxy` (chromefleet.py:575-610):
`get_tailscale_ip` runs BEFORE the accept; if it raises, the exception
escapes the handler unhandled; an empty address or a failed backend connect
is answered with a bare `websocket.close()` (default code 1000); otherwise
the accept (subprotocol "binary") and the relay follow. -/
def websockify_acts (e : TunnelEnv) : List WsAct :=
  match e.tailscale with
  | .error _ => [.resolvedBackend, .unhandledError]
  | .ok ip =>
    if ip = [] then [.resolvedBackend, .closedWith 1000]
    else
      .resolvedBackend :: .accepted (some "binary".toList) ::
        (if e.vncConnectOk = false then [.resolvedBackend, .closedWith 1000]
         else [.resolvedBackend, .relayed])

/-! ## The pump-completion policy of the relay (chromefleet.py:461-472, 610) -/

/-- How one pump task of a relay behaves when left alone: it either
completes on its own at a given time, or never completes. -/
inductive PumpFate
  | finishes (t : Nat)
  | diverges
deriving DecidableEq

/-- The time at which a pump completes on its own, if ever. -/
def finishTime : PumpFate → Option Nat
  | .finishes t => some t
  | .diverges => none

/-- The `return_when` argument of `asyncio.wait`. -/
inductive ReturnPolicy
  | firstCompleted
  | allCompleted
deriving DecidableEq

/-- `asyncio.wait` over two tasks: the earliest time at which the return
condition holds (`none` when it never does and the wait blocks forever). -/
def waitReturnTime (p : ReturnPolicy) (f g : PumpFate) : Option Nat :=
  match p with
  | .firstCompleted =>
    match finishTime f, finishTime g with
    | some a, some b => some (min a b)
    | some a, none => some a
    | none, some b => some b
    | none, none => none
  | .allCompleted =>
    match finishTime f, finishTime g with
    | some a, some b => some (max a b)
    | _, _ => none

/-- The tasks still pending at time `t`. -/
def pendingAt (f g : PumpFate) (t : Nat) : List PumpFate :=
  [f, g].filter (fun x =>
    match finishTime x with
    | some s => decide (t < s)
    | none => true)

/-- Line 465: `await asyncio.wait(tasks, return_when=asyncio.ALL_COMPLETED)`
— the time the wait returns and the `pending` set it hands back. -/
def websocket_proxy_wait (f g : PumpFate) : Option (Nat × List PumpFate) :=
  (waitReturnTime .allCompleted f g).map (fun t => (t, pendingAt f g t))

/-- The tasks the loop at lines 467-472 cancels: exactly the `pending` set
of the wait (nothing when the wait never returns). -/
def websocket_proxy_cancelled (f g : PumpFate) : List PumpFate :=
  ((websocket_proxy_wait f g).map Prod.snd).getD []

/-- Line 610: `await asyncio.gather(ws_to_vnc(), vnc_to_ws())` — gather
returns only when every task has completed, like `ALL_COMPLETED`. -/
def websockify_gather_return (f g : PumpFate) : Option Nat :=
  waitReturnTime .allCompleted f g

/-! ## Helper lemmas -/

theorem extractIds_eq_none_of_mem :
    ∀ items : List PageItem, none ∈ items.map PageItem.id → extractIds items = none := by
  intro items hmem
  induction items with
  | nil => simp at hmem
  | cons item rest ih =>
    simp only [List.map_cons, List.mem_cons] at hmem
    cases hid : item.id with
    | none => simp [extractIds, hid]
    | some i =>
      simp only [extractIds, hid]
      rcases hmem with h | h
      · rw [hid] at h
        exact absurd h.symm (by simp)
      · rw [ih h]
        rfl

theorem extractIds_map_some (ids : List (List Char)) :
    extractIds (ids.map (fun i => ⟨some i⟩)) = some ids := by
  induction ids with
  | nil => rfl
  | cons i rest ih => simp [extractIds, ih]

theorem infix_append_right {xs zs : List Char} (ys : List Char)
    (h : xs <:+: zs) : xs <:+: ys ++ zs := by
  obtain ⟨s, t, hst⟩ := h
  exact ⟨ys ++ s, t, by rw [← hst]; simp⟩

/-! ## Claim theorems -/

/-- C5 (amended): the mapping from session id to container name
(`"chromium-" ++ id`) is injective, and the slice strip used by the
enumeration recovers the id from every derived container name (so the
enumeration of any list of derived names returns exactly the ids); but the
fan-out page scan strips with `replace`, which removes every occurrence of
`"chromium-"`, so it recovers the id exactly when the id itself is
unchanged by that removal (in particular, not when the id contains
`"chromium-"`). -/
theorem container_name_strip_amended :
    (∀ a b : List Char, container_name a = container_name b → a = b)
    ∧ (∀ id : List Char, stripBySlice (container_name id) = id)
    ∧ (∀ ids : List (List Char), list_browsers (ids.map container_name) = ids)
    ∧ (∀ id : List Char, replaceMark (container_name id) = id ↔ replaceMark id = id) := by
  have hlen : chromiumMark.length = 9 := by decide
  have hslice : ∀ id : List Char, stripBySlice (container_name id) = id := by
    intro id
    rw [stripBySlice, container_name, ← hlen, List.drop_left]
  refine ⟨?_, hslice, ?_, ?_⟩
  · intro a b h
    exact List.append_cancel_left h
  · intro ids
    have hfilter : (ids.map container_name).filter (fun c => chromiumMark.isPrefixOf c)
        = ids.map container_name := by
      apply List.filter_eq_self.mpr
      intro c hc
      obtain ⟨i, _, rfl⟩ := List.mem_map.mp hc
      exact isPrefixOf_append_self _ _
    rw [list_browsers, hfilter, List.map_map]
    have hcomp : stripBySlice ∘ container_name = id := by
      funext i
      exact hslice i
    rw [hcomp, List.map_id]
  · intro id
    rw [container_name, replaceMark_mark]

/-- C5 counterexample: the claim says every strip operation recovers the
original id, but the fan-out scan's `replace`-based strip does not recover
the id `"chromium-x"` from its derived container name
`"chromium-chromium-x"` — it yields `"x"`. -/
theorem container_name_strip_counterexample :
    replaceMark (container_name ("chromium-x".toList)) ≠ "chromium-x".toList := by
  decide

/-- C5 witness: the amended theorem applied at the concrete id `"b1"`. -/
theorem container_name_strip_witness :
    stripBySlice (container_name ("b1".toList)) = "b1".toList
    ∧ list_browsers (["b1".toList].map container_name) = ["b1".toList]
    ∧ (replaceMark (container_name ("b1".toList)) = "b1".toList ↔
        replaceMark ("b1".toList) = "b1".toList) :=
  ⟨container_name_strip_amended.2.1 _, container_name_strip_amended.2.2.1 _,
    container_name_strip_amended.2.2.2 _⟩

/-- C6: `find_browser_id` returns exactly the first session, in the
fan-out's enumeration order, whose page list contains the page id; it is
`none` precisely when no enumerated session's page list contains the id,
and any returned session's page list does contain it. -/
theorem find_browser_id_first_match (f : Fleet) (p : List Char) :
    find_browser_id f p
        = (fanoutSessions f).find? (fun b => decide (p ∈ get_page_list f b))
    ∧ (find_browser_id f p = none ↔ ∀ b ∈ fanoutSessions f, p ∉ get_page_list f b)
    ∧ (∀ b, find_browser_id f p = some b → p ∈ get_page_list f b) := by
  have heq : find_browser_id f p
      = (fanoutSessions f).find? (fun b => decide (p ∈ get_page_list f b)) :=
    findLoop_eq_find? f p _
  refine ⟨heq, ?_, ?_⟩
  · rw [heq, List.find?_eq_none]
    simp
  · intro b hb
    rw [heq] at hb
    have := List.find?_some hb
    simpa using this

/-- A concrete one-session fleet used by the discovery witnesses. -/
def fleetEx : Fleet where
  containers := ["chromium-b1".toList]
  tailscale := fun c => if c = "chromium-b1".toList then some "100.1.2.3".toList else none
  pageDoc := fun u =>
    if u = cdpUrlOf ("100.1.2.3".toList) then some [⟨some ("p1".toList)⟩] else none

/-- C6 witness: on the concrete fleet, the theorem pins the scan's result
to the first (only) matching session. -/
theorem find_browser_id_first_match_witness :
    find_browser_id fleetEx ("p1".toList) = some ("b1".toList) := by
  have h := find_browser_id_first_match fleetEx ("p1".toList)
  rw [h.1]
  decide

/-- C7: `get_page_list` never raises — it returns `[]` when the address
lookup fails, when the fetch or parse fails, and when the document is
malformed (an item without an id); on success it returns the ids of the
page-list document in order. -/
theorem get_page_list_total (f : Fleet) (b : List Char) :
    (f.tailscale (container_name b) = none → get_page_list f b = [])
    ∧ (∀ url, get_cdp_url f b = some url → f.pageDoc url = none →
        get_page_list f b = [])
    ∧ (∀ url items, get_cdp_url f b = some url → f.pageDoc url = some items →
        none ∈ items.map PageItem.id → get_page_list f b = [])
    ∧ (∀ url ids, get_cdp_url f b = some url →
        f.pageDoc url = some (ids.map (fun i => ⟨some i⟩)) →
        get_page_list f b = ids) := by
  refine ⟨?_, ?_, ?_, ?_⟩
  · intro h
    simp [get_page_list, get_cdp_url, h]
  · intro url hu hd
    simp [get_page_list, hu, hd]
  · intro url items hu hd hmem
    simp [get_page_list, hu, hd, extractIds_eq_none_of_mem items hmem]
  · intro url ids hu hd
    simp [get_page_list, hu, hd, extractIds_map_some]

/-- C7 witness: on the concrete fleet the success case returns the one
page id of the document. -/
theorem get_page_list_total_witness :
    get_page_list fleetEx ("b1".toList) = ["p1".toList] :=
  (get_page_list_total fleetEx ("b1".toList)).2.2.2
    (cdpUrlOf ("100.1.2.3".toList)) ["p1".toList] (by decide) (by decide)

/-- C8: `get_container_last_activity` converts the history store's
Chromium epoch (microseconds since 1601-01-01) to a Unix timestamp by
dividing by 1,000,000 and subtracting 11,644,473,600 seconds, and returns
`none` on every read failure (failed copy, failed query, empty or
unparseable output) instead of raising. -/
theorem last_activity_epoch_conversion (e : HistoryEnv) :
    (∀ t : ℚ, e.copyOk = true → e.queryOut = some (some t) →
        get_container_last_activity e = some (t / 1000000 - 11644473600))
    ∧ (e.copyOk = false → get_container_last_activity e = none)
    ∧ (e.queryOut = none → get_container_last_activity e = none)
    ∧ (e.queryOut = some none → get_container_last_activity e = none) := by
  refine ⟨?_, ?_, ?_, ?_⟩
  · intro t hc hq
    simp [get_container_last_activity, hc, hq]
  · intro hc
    simp [get_container_last_activity, hc]
  · intro hq
    cases hc : e.copyOk <;> simp [get_container_last_activity, hc, hq]
  · intro hq
    cases hc : e.copyOk <;> simp [get_container_last_activity, hc, hq]

/-- C8 witness: a concrete Chromium-epoch value lands exactly on the Unix
epoch after the conversion. -/
theorem last_activity_epoch_conversion_witness :
    get_container_last_activity ⟨true, some (some 11644473600000000)⟩ = some 0 := by
  have h := (last_activity_epoch_conversion ⟨true, some (some 11644473600000000)⟩).1
    11644473600000000 rfl rfl
  rw [h]
  norm_num

/-! ## Evaluation lemmas for the administrative handlers -/

theorem range_max_attempts : List.range MAX_ATTEMPTS = [0, 1, 2] := rfl

theorem get_browser_not_exists (e : GatewayEnv) (b : List Char)
    (hex : e.container_exists = false) :
    get_browser e b = (.error (.notFound (notFoundDetail b)), []) := by
  simp [get_browser, hex]

theorem get_browser_ok0 (e : GatewayEnv) (b : List Char) (ip : List Char)
    (hex : e.container_exists = true) (h0 : e.ipAttempt 0 = .ok ip) :
    get_browser e b = (.ok (some ⟨ip, cdpUrlOf ip, e.lastActivity⟩), []) := by
  simp [get_browser, hex, range_max_attempts, get_browser_go, h0]

theorem get_browser_ok1 (e : GatewayEnv) (b : List Char) (c0 ip : List Char)
    (hex : e.container_exists = true) (h0 : e.ipAttempt 0 = .error c0)
    (h1 : e.ipAttempt 1 = .ok ip) :
    get_browser e b = (.ok (some ⟨ip, cdpUrlOf ip, e.lastActivity⟩), [1]) := by
  simp [get_browser, hex, range_max_attempts, get_browser_go, h0, h1, MAX_ATTEMPTS]

theorem get_browser_ok2 (e : GatewayEnv) (b : List Char) (c0 c1 ip : List Char)
    (hex : e.container_exists = true) (h0 : e.ipAttempt 0 = .error c0)
    (h1 : e.ipAttempt 1 = .error c1) (h2 : e.ipAttempt 2 = .ok ip) :
    get_browser e b = (.ok (some ⟨ip, cdpUrlOf ip, e.lastActivity⟩), [1, 1]) := by
  simp [get_browser, hex, range_max_attempts, get_browser_go, h0, h1, h2, MAX_ATTEMPTS]

theorem get_browser_fail3 (e : GatewayEnv) (b : List Char) (c0 c1 c2 : List Char)
    (hex : e.container_exists = true) (h0 : e.ipAttempt 0 = .error c0)
    (h1 : e.ipAttempt 1 = .error c1) (h2 : e.ipAttempt 2 = .error c2) :
    get_browser e b = (.error (.internal (unableIpDetail b)), [1, 1, 1]) := by
  simp [get_browser, hex, range_max_attempts, get_browser_go, h0, h1, h2, MAX_ATTEMPTS]

theorem connect_not_exists (e : GatewayEnv) (b : List Char)
    (hex : e.container_exists = false) :
    connect_browser_to_tailscale e b = (.error (.notFound (notFoundDetail b)), []) := by
  simp [connect_browser_to_tailscale, hex]

theorem connect_first_success (e : GatewayEnv) (b : List Char) (ip : List Char)
    (hex : e.container_exists = true) (hs0 : e.setupAttempt 0 = true)
    (hip : e.ipAttempt 0 = .ok ip) :
    connect_browser_to_tailscale e b
      = (.ok (some ⟨ip, cdpUrlOf ip, e.lastActivity⟩), [1]) := by
  simp [connect_browser_to_tailscale, hex, range_max_attempts, connect_go, hs0,
    get_browser_ok0 e b ip hex hip]

theorem connect_third_success (e : GatewayEnv) (b : List Char) (ip : List Char)
    (hex : e.container_exists = true) (hs0 : e.setupAttempt 0 = false)
    (hs1 : e.setupAttempt 1 = false) (hs2 : e.setupAttempt 2 = true)
    (hip : e.ipAttempt 0 = .ok ip) :
    connect_browser_to_tailscale e b
      = (.ok (some ⟨ip, cdpUrlOf ip, e.lastActivity⟩), [1, 1, 1]) := by
  simp [connect_browser_to_tailscale, hex, range_max_attempts, connect_go, hs0, hs1, hs2,
    get_browser_ok0 e b ip hex hip]

theorem connect_fail3 (e : GatewayEnv) (b : List Char)
    (hex : e.container_exists = true) (hs0 : e.setupAttempt 0 = false)
    (hs1 : e.setupAttempt 1 = false) (hs2 : e.setupAttempt 2 = false) :
    connect_browser_to_tailscale e b = (.error (.internal (connectDetail b)), [1, 1, 1]) := by
  simp [connect_browser_to_tailscale, hex, range_max_attempts, connect_go, hs0, hs1, hs2]

/-- C3 (amended): `get_browser` is a poll-and-retry query over at most 3
`get_tailscale_ip` attempts with a 1-second sleep after each failed attempt
(not the 2-second spacing the claim states); it returns the address, the
derived cdp URL and the last activity on any successful attempt, raises
404 when the container is absent, and raises the 500 detail only after all
3 attempts have failed. -/
theorem get_browser_retry_amended (e : GatewayEnv) (b : List Char) :
    (e.container_exists = false →
        get_browser e b = (.error (.notFound (notFoundDetail b)), []))
    ∧ (∀ ip, e.container_exists = true → e.ipAttempt 0 = .ok ip →
        get_browser e b = (.ok (some ⟨ip, cdpUrlOf ip, e.lastActivity⟩), []))
    ∧ (∀ c0 ip, e.container_exists = true → e.ipAttempt 0 = .error c0 →
        e.ipAttempt 1 = .ok ip →
        get_browser e b = (.ok (some ⟨ip, cdpUrlOf ip, e.lastActivity⟩), [1]))
    ∧ (∀ c0 c1 ip, e.container_exists = true → e.ipAttempt 0 = .error c0 →
        e.ipAttempt 1 = .error c1 → e.ipAttempt 2 = .ok ip →
        get_browser e b = (.ok (some ⟨ip, cdpUrlOf ip, e.lastActivity⟩), [1, 1]))
    ∧ (∀ c0 c1 c2, e.container_exists = true → e.ipAttempt 0 = .error c0 →
        e.ipAttempt 1 = .error c1 → e.ipAttempt 2 = .error c2 →
        get_browser e b = (.error (.internal (unableIpDetail b)), [1, 1, 1])) :=
  ⟨get_browser_not_exists e b,
   fun ip hex h0 => get_browser_ok0 e b ip hex h0,
   fun c0 ip hex h0 h1 => get_browser_ok1 e b c0 ip hex h0 h1,
   fun c0 c1 ip hex h0 h1 h2 => get_browser_ok2 e b c0 c1 ip hex h0 h1 h2,
   fun c0 c1 c2 hex h0 h1 h2 => get_browser_fail3 e b c0 c1 c2 hex h0 h1 h2⟩

/-- A gateway environment in which every `get_tailscale_ip` attempt and
every `setup_tailscale` attempt fails. -/
def envAllFail : GatewayEnv where
  container_exists := true
  ipAttempt := fun _ => .error ("boom".toList)
  lastActivity := none
  setupAttempt := fun _ => false
  launch := .error ("boom".toList)

/-- C3 counterexample: the claim states a 2-second spacing between the
retry attempts, but on an environment where all attempts fail the recorded
sleeps are three 1-second sleeps and no 2-second sleep occurs. -/
theorem get_browser_retry_counterexample :
    (get_browser envAllFail ("b1".toList)).2 = [1, 1, 1]
    ∧ (2 : Nat) ∉ (get_browser envAllFail ("b1".toList)).2 := by
  decide

/-- A gateway environment whose address lookup fails once and then
succeeds, with `setup_tailscale` succeeding only on the third attempt. -/
def envSecondIp : GatewayEnv where
  container_exists := true
  ipAttempt := fun k => if k = 0 then .error ("boom".toList) else .ok ("100.1.2.3".toList)
  lastActivity := none
  setupAttempt := fun k => k == 2
  launch := .ok ("cid".toList)

/-- C3 witness: the amended theorem applied to the concrete environment
whose lookup succeeds on the second attempt. -/
theorem get_browser_retry_witness :
    get_browser envSecondIp ("b1".toList)
      = (.ok (some ⟨"100.1.2.3".toList, cdpUrlOf ("100.1.2.3".toList), none⟩), [1]) :=
  (get_browser_retry_amended envSecondIp ("b1".toList)).2.2.1
    ("boom".toList) ("100.1.2.3".toList) rfl rfl rfl

/-- C4 (amended): `connect_browser_to_tailscale` retries the
authentication command over at most 3 attempts, but with a 1-second sleep
before every attempt, including the first (not a 3-second backoff between
failed attempts); two failures followed by a success on the third attempt
within the bound yield success, and three failures yield a 500 error whose
detail names the Tailscale attachment. -/
theorem connect_retry_amended (e : GatewayEnv) (b : List Char) :
    (e.container_exists = false →
        connect_browser_to_tailscale e b = (.error (.notFound (notFoundDetail b)), []))
    ∧ (∀ ip, e.container_exists = true → e.setupAttempt 0 = true →
        e.ipAttempt 0 = .ok ip →
        connect_browser_to_tailscale e b
          = (.ok (some ⟨ip, cdpUrlOf ip, e.lastActivity⟩), [1]))
    ∧ (∀ ip, e.container_exists = true → e.setupAttempt 0 = false →
        e.setupAttempt 1 = false → e.setupAttempt 2 = true → e.ipAttempt 0 = .ok ip →
        connect_browser_to_tailscale e b
          = (.ok (some ⟨ip, cdpUrlOf ip, e.lastActivity⟩), [1, 1, 1]))
    ∧ (e.container_exists = true → e.setupAttempt 0 = false →
        e.setupAttempt 1 = false → e.setupAttempt 2 = false →
        connect_browser_to_tailscale e b = (.error (.internal (connectDetail b)), [1, 1, 1]))
    ∧ "Tailscale".toList <:+: connectDetail b := by
  refine ⟨connect_not_exists e b,
    fun ip hex hs0 hip => connect_first_success e b ip hex hs0 hip,
    fun ip hex hs0 hs1 hs2 hip => connect_third_success e b ip hex hs0 hs1 hs2 hip,
    fun hex hs0 hs1 hs2 => connect_fail3 e b hex hs0 hs1 hs2, ?_⟩
  unfold connectDetail
  apply infix_append_right
  exact ⟨" to ".toList, "!".toList, by decide⟩

/-- A gateway environment whose address lookup always succeeds but whose
`setup_tailscale` succeeds only on the third attempt. -/
def envAuthThird : GatewayEnv where
  container_exists := true
  ipAttempt := fun _ => .ok ("100.1.2.3".toList)
  lastActivity := none
  setupAttempt := fun k => k == 2
  launch := .ok ("cid".toList)

/-- C4 counterexample: the claim states a 3-second backoff between failed
authentication attempts, but on the environment whose authentication
succeeds only on the third attempt the recorded sleeps are three 1-second
sleeps — one before every attempt — and no 3-second sleep occurs. -/
theorem connect_retry_counterexample :
    (connect_browser_to_tailscale envAuthThird ("b1".toList)).2 = [1, 1, 1]
    ∧ (3 : Nat) ∉ (connect_browser_to_tailscale envAuthThird ("b1".toList)).2 := by
  decide

/-- C4 witness: the amended theorem applied to the environment whose
authentication fails twice and succeeds on the third attempt. -/
theorem connect_retry_witness :
    connect_browser_to_tailscale envAuthThird ("b1".toList)
      = (.ok (some ⟨"100.1.2.3".toList, cdpUrlOf ("100.1.2.3".toList), none⟩), [1, 1, 1]) :=
  (connect_retry_amended envAuthThird ("b1".toList)).2.2.1
    ("100.1.2.3".toList) rfl rfl rfl rfl rfl

/-- C9 (amended): when an administrative or query operation fails, the
structured error detail names only the failed operation and the browser id
— the underlying cause is printed to the server log, not included in the
detail.  For `create_browser` the log line carries the cause verbatim
while the HTTP detail is the fixed start message; for `get_browser` and
`connect_browser_to_tailscale` the exhaustion details are likewise fixed
strings independent of the underlying error texts. -/
theorem error_detail_cause_amended (e : GatewayEnv) (b : List Char) :
    (∀ cause, e.launch = .error cause →
        create_browser e b
          = (.error (.internal (startDetail b)),
             [startDetail b ++ exceptionMark ++ launchExcText b cause])
        ∧ cause <:+: startDetail b ++ exceptionMark ++ launchExcText b cause)
    ∧ (∀ c0 c1 c2, e.container_exists = true → e.ipAttempt 0 = .error c0 →
        e.ipAttempt 1 = .error c1 → e.ipAttempt 2 = .error c2 →
        (get_browser e b).1 = .error (.internal (unableIpDetail b)))
    ∧ (e.container_exists = true → e.setupAttempt 0 = false →
        e.setupAttempt 1 = false → e.setupAttempt 2 = false →
        (connect_browser_to_tailscale e b).1 = .error (.internal (connectDetail b))) := by
  refine ⟨?_, ?_, ?_⟩
  · intro cause hl
    constructor
    · simp [create_browser, launch_container, hl]
    · exact ⟨startDetail b ++ exceptionMark
          ++ ("Unable to launch Chromium for ".toList ++ container_name b ++ ": ".toList),
        [], by simp [launchExcText, List.append_assoc]⟩
  · intro c0 c1 c2 hex h0 h1 h2
    rw [get_browser_fail3 e b c0 c1 c2 hex h0 h1 h2]
  · intro hex hs0 hs1 hs2
    rw [connect_fail3 e b hex hs0 hs1 hs2]

/-- C9 counterexample: with the underlying cause `"boom"`, the create,
get-info and connect failures all return details that do not contain the
cause, so the claim that every failing operation's detail includes the
underlying cause is false. -/
theorem error_detail_cause_counterexample :
    (create_browser envAllFail ("b1".toList)).1
        = .error (.internal (startDetail ("b1".toList)))
    ∧ ¬ "boom".toList <:+: startDetail ("b1".toList)
    ∧ (get_browser envAllFail ("b1".toList)).1
        = .error (.internal (unableIpDetail ("b1".toList)))
    ∧ ¬ "boom".toList <:+: unableIpDetail ("b1".toList)
    ∧ (connect_browser_to_tailscale envAllFail ("b1".toList)).1
        = .error (.internal (connectDetail ("b1".toList)))
    ∧ ¬ "boom".toList <:+: connectDetail ("b1".toList) := by
  refine ⟨rfl, by decide, rfl, by decide, rfl, by decide⟩

/-- C9 witness: the amended theorem applied at the environment whose
launch fails with cause `"boom"`. -/
theorem error_detail_cause_witness :
    create_browser envAllFail ("b1".toList)
      = (.error (.internal (startDetail ("b1".toList))),
         [startDetail ("b1".toList) ++ exceptionMark
           ++ launchExcText ("b1".toList) ("boom".toList)])
    ∧ "boom".toList <:+: startDetail ("b1".toList) ++ exceptionMark
        ++ launchExcText ("b1".toList) ("boom".toList) :=
  (error_detail_cause_amended envAllFail ("b1".toList)).1 ("boom".toList) rfl

/-- C10 (amended): for an existing session whose configuration has a
missing or empty `proxy_url`, `configure_browser` executes no
state-modifying command — only the read-only address lookup — and returns
success provided that lookup succeeds; when the lookup fails it returns a
500 error, still with no state-modifying command executed.  Unrecognized
keys are ignored: the outcome depends on the configuration only through
its `proxy_url` entry. -/
theorem configure_noop_amended (e : CfgEnv) (cfg : Config) (b : List Char) :
    (e.container_exists = true → cfgGet cfg proxyUrlKey [] = [] →
        ((∀ ip, e.tailscale = some ip →
            configure_browser e cfg b = (.ok configuredStatus, [.queryIp]))
         ∧ (e.tailscale = none →
            configure_browser e cfg b = (.error (.internal (configDetail b)), [.queryIp]))
         ∧ (∀ c ∈ (configure_browser e cfg b).2, stateModifying c = false)))
    ∧ (∀ cfg2 : Config, cfgGet cfg proxyUrlKey [] = cfgGet cfg2 proxyUrlKey [] →
        configure_browser e cfg b = configure_browser e cfg2 b) := by
  constructor
  · intro hex hempty
    refine ⟨?_, ?_, ?_⟩
    · intro ip hip
      simp [configure_browser, hex, configure_container, hip, hempty]
    · intro hip
      simp [configure_browser, hex, configure_container, hip]
    · intro c hc
      cases hip : e.tailscale with
      | none =>
        simp [configure_browser, hex, configure_container, hip] at hc
        simp [hc, stateModifying]
      | some ip =>
        simp [configure_browser, hex, configure_container, hip, hempty] at hc
        simp [hc, stateModifying]
  · intro cfg2 h
    cases hip : e.tailscale with
    | none => simp [configure_browser, configure_container, hip]
    | some ip => simp [configure_browser, configure_container, hip, h]

/-- A configuration environment whose container exists but whose address
lookup fails. -/
def cfgEnvNoIp : CfgEnv where
  container_exists := true
  tailscale := none
  sedDelOk := true
  sedAddOk := true
  pkillOk := true
  startOk := true

/-- C10 counterexample: with an existing container, an empty configuration
and a failing address lookup, `configure_browser` returns the 500 error
body — not success as the claim states — though it still runs only the
read-only lookup. -/
theorem configure_noop_counterexample :
    configure_browser cfgEnvNoIp [] ("b1".toList)
      = (.error (.internal (configDetail ("b1".toList))), [.queryIp])
    ∧ (configure_browser cfgEnvNoIp [] ("b1".toList)).1.isOk = false :=
  ⟨rfl, rfl⟩

/-- A configuration environment whose container exists and whose address
lookup succeeds. -/
def cfgEnvOk : CfgEnv where
  container_exists := true
  tailscale := some ("100.1.2.3".toList)
  sedDelOk := true
  sedAddOk := true
  pkillOk := true
  startOk := true

/-- C10 witness: the amended theorem applied at a configuration holding
only an unrecognized key. -/
theorem configure_noop_witness :
    configure_browser cfgEnvOk [("other".toList, "v".toList)] ("b1".toList)
      = (.ok configuredStatus, [.queryIp]) :=
  ((configure_noop_amended cfgEnvOk [("other".toList, "v".toList)] ("b1".toList)).1
    rfl (by decide)).1 ("100.1.2.3".toList) rfl

/-- C2 (amended): the debugging-protocol tunnel accepts the client before
any backend resolution and answers every resolution failure with a
deterministic close code (1008 when the session is absent, 4502 when the
debugger URL cannot be obtained or the backend is unreachable, 4500 on an
internal error); the remote-desktop tunnel, however, resolves the backend
address BEFORE accepting, and when that resolution fails the exception
escapes the handler and the client connection is dropped with no close
code. -/
theorem tunnel_accept_order_amended (e : TunnelEnv) :
    (cdp_browser_acts e).head? = some (.accepted none)
    ∧ (e.container_exists = false →
        cdp_browser_acts e = [.accepted none, .checkedContainer, .closedWith 1008])
    ∧ (e.container_exists = true → e.debuggerUrl = .error () →
        cdp_browser_acts e
          = [.accepted none, .checkedContainer, .resolvedBackend, .closedWith 4502])
    ∧ (∀ u, e.container_exists = true → e.debuggerUrl = .ok u →
        e.backendConnect = .osError → e.clientStillConnected = true →
        cdp_browser_acts e
          = [.accepted none, .checkedContainer, .resolvedBackend, .resolvedBackend,
             .closedWith 4502])
    ∧ (∀ u, e.container_exists = true → e.debuggerUrl = .ok u →
        e.backendConnect = .otherError → e.clientStillConnected = true →
        cdp_browser_acts e
          = [.accepted none, .checkedContainer, .resolvedBackend, .resolvedBackend,
             .closedWith 4500])
    ∧ (websockify_acts e).head? = some .resolvedBackend
    ∧ (e.tailscale = .error () →
        websockify_acts e = [.resolvedBackend, .unhandledError]) := by
  refine ⟨rfl, ?_, ?_, ?_, ?_, ?_, ?_⟩
  · intro hex
    simp [cdp_browser_acts, hex]
  · intro hex hd
    simp [cdp_browser_acts, hex, hd]
  · intro u hex hd hb hc
    simp [cdp_browser_acts, websocket_proxy_acts, hex, hd, hb, hc]
  · intro u hex hd hb hc
    simp [cdp_browser_acts, websocket_proxy_acts, hex, hd, hb, hc]
  · cases ht : e.tailscale with
    | error u => simp [websockify_acts, ht]
    | ok ip =>
      by_cases hip : ip = []
      · simp [websockify_acts, ht, hip]
      · simp [websockify_acts, ht, hip]
  · intro ht
    simp [websockify_acts, ht]

/-- A tunnel environment whose session is absent: the remote-desktop
handler's address lookup raises. -/
def tunnelEnvBad : TunnelEnv where
  container_exists := false
  debuggerUrl := .error ()
  backendConnect := .osError
  clientStillConnected := true
  tailscale := .error ()
  vncConnectOk := false

/-- C2 counterexample: on the remote-desktop tunnel the first client-visible
step is the backend resolution, not the accept, and when that resolution
fails the handler ends in an unhandled exception — a dropped connection
with no close code — contradicting the claim for the remote-desktop
tunnel. -/
theorem tunnel_accept_order_counterexample :
    websockify_acts tunnelEnvBad = [.resolvedBackend, .unhandledError]
    ∧ (websockify_acts tunnelEnvBad).head? ≠ some (.accepted (some ("binary".toList))) := by
  decide

/-- C2 witness: the amended theorem applied at the environment whose
session is absent pins the debugging-protocol tunnel's close code 1008. -/
theorem tunnel_accept_order_witness :
    cdp_browser_acts tunnelEnvBad
      = [.accepted none, .checkedContainer, .closedWith 1008] :=
  (tunnel_accept_order_amended tunnelEnvBad).2.1 rfl

/-- C1: the relay's completion policy evaluated at the failing input.  The
source waits with `return_when=asyncio.ALL_COMPLETED` (and `websockify`
uses `asyncio.gather`), so when the client-to-backend pump finishes at
time 0 and the backend-to-client pump never finishes on its own, the relay
never terminates and nothing is cancelled; when the second pump finishes
at time 5 on its own, the wait returns only at time 5 with an empty
`pending` set, so the cancellation loop cancels nothing — the loop is dead
code, as the general last conjunct shows.  The intended
`FIRST_COMPLETED` policy would have returned at time 0. -/
theorem relay_wait_requires_both_pumps :
    websocket_proxy_wait (.finishes 0) .diverges = none
    ∧ websocket_proxy_wait (.finishes 0) (.finishes 5) = some (5, [])
    ∧ websocket_proxy_cancelled (.finishes 0) (.finishes 5) = []
    ∧ websockify_gather_return (.finishes 0) .diverges = none
    ∧ waitReturnTime .firstCompleted (.finishes 0) .diverges = some 0
    ∧ (∀ f g, websocket_proxy_cancelled f g = []) := by
  refine ⟨by decide, by decide, by decide, by decide, by decide, ?_⟩
  intro f g
  cases f with
  | diverges =>
    cases g <;>
      simp [websocket_proxy_cancelled, websocket_proxy_wait, waitReturnTime, finishTime]
  | finishes a =>
    cases g with
    | diverges =>
      simp [websocket_proxy_cancelled, websocket_proxy_wait, waitReturnTime, finishTime]
    | finishes c =>
      simp [websocket_proxy_cancelled, websocket_proxy_wait, waitReturnTime, finishTime,
        pendingAt, Nat.not_lt, Nat.le_max_left, Nat.le_max_right]
